import Mathlib

set_option autoImplicit false

/-
Verification of the server-side runtime of the Tennis_Web repository
(backend: scheduler, broker, relay, control handlers), as a shallow
embedding in Lean.  Python dictionaries are modelled as association
lists with unique keys (`List (String × PyVal)`), asyncio generators as
the lists of values they yield, and stateful components as explicit
state-passing functions.
-/

namespace TennisWeb

/-- Python values as they occur on the wire in this code base: `None`,
booleans, integers, strings and dictionaries with string keys.  Score
records, broker messages and handler payloads are all of this shape. -/
inductive PyVal where
  | none
  | bool (b : Bool)
  | int (n : Int)
  | str (s : String)
  | dict (entries : List (String × PyVal))
deriving Repr

/-- First-match lookup in an association list, the model of a Python
dict access `d.get(k)` (Python dicts have unique keys, so first match
is the match). -/
def assocGet {α : Type} : List (String × α) → String → Option α
  | [], _ => Option.none
  | (k, v) :: rest, key => if k = key then some v else assocGet rest key

/-- Model of Python dict assignment `d[k] = v` (also of `{**d, k: v}`
and `d.update({k: v})`): replace the binding of `k` in place if present,
otherwise append it. -/
def assocSet {α : Type} : List (String × α) → String → α → List (String × α)
  | [], key, v => [(key, v)]
  | (k, w) :: rest, key, v =>
      if k = key then (key, v) :: rest else (k, w) :: assocSet rest key v

/-- Model of Python `d.pop(k, None)`: remove the binding of `k`.  Under
the unique-keys invariant of Python dicts, removing every binding of `k`
agrees with removing the one binding. -/
def assocPop {α : Type} : List (String × α) → String → List (String × α)
  | [], _ => []
  | (k, v) :: rest, key =>
      if k = key then assocPop rest key else (k, v) :: assocPop rest key

/-- Model of merging dict `new` into dict `base`, as in the Python
literal `{**base_entries, **new_entries}`: later keys overwrite
earlier ones. -/
def assocMerge {α : Type} (base new : List (String × α)) : List (String × α) :=
  new.foldl (fun acc kv => assocSet acc kv.1 kv.2) base

/-- Dictionary member access `m.get(k)` on an arbitrary value: only
dicts have entries. -/
def PyVal.get (v : PyVal) (key : String) : Option PyVal :=
  match v with
  | .dict entries => assocGet entries key
  | _ => Option.none

/-- Python truthiness of a value, as used by `if not msg_type_str` and
by the broker sentinel check `message.get("__sentinel__")`. -/
def pyTruthy : PyVal → Bool
  | .none => false
  | .bool b => b
  | .int n => decide (n ≠ 0)
  | .str s => !s.isEmpty
  | .dict entries => !entries.isEmpty

/-- The in-band shutdown marker test from the brokers
(`isinstance(message, dict) and message.get("__sentinel__")`). -/
def isSentinel : PyVal → Bool
  | .dict entries =>
      match assocGet entries "__sentinel__" with
      | some v => pyTruthy v
      | Option.none => false
  | _ => false

/-- The sentinel envelope the in-memory broker posts on shutdown:
`{"__sentinel__": True}`. -/
def sentinelMsg : PyVal := .dict [("__sentinel__", .bool true)]

/-- `BrokerChannels.CONTROLS` (broker_channels.py, `auto()` on a
`StrEnum` lower-cases the member name). -/
def BrokerChannels.CONTROLS : String := "controls"

/-- `BrokerChannels.SCORES_UPDATE` (broker_channels.py). -/
def BrokerChannels.SCORES_UPDATE : String := "scores_update"

/-- `ClientEvent.GAME_JOIN` (client_events.py). -/
def ClientEvent.GAME_JOIN : String := "game.join"

/-- `ClientEvent.GAME_SCORE_UPDATE` (client_events.py). -/
def ClientEvent.GAME_SCORE_UPDATE : String := "game.score.update"

/-- `ClientEvent.ERROR` (client_events.py). -/
def ClientEvent.ERROR : String := "game.error"

/-- The underlying strings of the `ClientEvent` enumeration
(client_events.py); `ClientEvent(s)` succeeds exactly when `s` is in
this list. -/
def clientEventStrings : List String :=
  ["game.join", "game.leave", "game.start", "game.end",
   "game.control.start", "game.control.pause", "game.control.resume",
   "game.control.speed", "game.score.update", "game.error"]

/-- `SchedulerState` (scheduler.py): the four states of a game
scheduler. -/
inductive SchedulerState where
  | not_started
  | paused
  | ongoing
  | autoplay
deriving DecidableEq, Repr

/-- The wire string of a scheduler state (`StrEnum` with `auto()`
lower-cases the member name). -/
def SchedulerState.toWire : SchedulerState → String
  | .not_started => "not_started"
  | .paused => "paused"
  | .ongoing => "ongoing"
  | .autoplay => "autoplay"

/-- The mutable core of a `GameScheduler` (scheduler.py): its `state`
field, the pause gate `pause_event` (`true` = set = go), and the
inter-emission interval `speed`. -/
structure GameSchedulerCore where
  state : SchedulerState
  pause_event : Bool
  speed : Rat
deriving DecidableEq, Repr

/-- `GameScheduler.start` (scheduler.py lines 248-258): sets the pause
event and sets state to `ONGOING`, from any current state. -/
def GameScheduler.start (s : GameSchedulerCore) : GameSchedulerCore :=
  { s with pause_event := true, state := .ongoing }

/-- `GameScheduler.pause` (scheduler.py lines 260-275): clears the
pause event and sets state to `PAUSED`, from any current state (it also
arms the pause timer and cancels the in-flight sleep, which do not
touch the state field). -/
def GameScheduler.pause (s : GameSchedulerCore) : GameSchedulerCore :=
  { s with pause_event := false, state := .paused }

/-- `GameScheduler.resume` (scheduler.py lines 277-288): sets the pause
event, cancels the pause timer, and sets state to `ONGOING`, from any
current state. -/
def GameScheduler.resume (s : GameSchedulerCore) : GameSchedulerCore :=
  { s with pause_event := true, state := .ongoing }

/-- `GameScheduler.resume_due_to_timeout` (scheduler.py lines 188-203):
sets state to `AUTOPLAY` and sets the pause event. -/
def GameScheduler.resume_due_to_timeout (s : GameSchedulerCore) : GameSchedulerCore :=
  { s with state := .autoplay, pause_event := true }

/-- The pause-deadline timer body (scheduler.py lines 169-177): after
the timeout it calls `resume_due_to_timeout` only if the pause event is
still clear; otherwise it does nothing. -/
def GameScheduler.pauseTimerFire (s : GameSchedulerCore) : GameSchedulerCore :=
  if s.pause_event then s else GameScheduler.resume_due_to_timeout s

/-- `GameScheduler.adjust_speed` (scheduler.py lines 290-314): a
non-positive speed is ignored; otherwise only the `speed` field is
updated (and the in-flight sleep cancelled). -/
def GameScheduler.adjust_speed (s : GameSchedulerCore) (new_speed : Rat) : GameSchedulerCore :=
  if new_speed ≤ 0 then s else { s with speed := new_speed }

/-- The transition edges listed by the specification: NOT_STARTED to
ONGOING, ONGOING to PAUSED, PAUSED to ONGOING, PAUSED to AUTOPLAY. -/
def listedEdge : SchedulerState → SchedulerState → Bool
  | .not_started, .ongoing => true
  | .ongoing, .paused => true
  | .paused, .ongoing => true
  | .paused, .autoplay => true
  | _, _ => false

/-- `RedisMessageBroker.publish` (redis_message_broker.py line 71)
computes the underlying pub/sub channel as
`full_channel = f"{game_id}:{channel}"`. -/
def RedisMessageBroker.publishChannel (game_id channel : String) : String :=
  game_id ++ ":" ++ channel

/-- `RedisMessageBroker.subscribe` (redis_message_broker.py line 121)
computes the underlying pub/sub channel per requested channel as
`full_channel = f"{game_id}:{channel}"`. -/
def RedisMessageBroker.subscribeChannel (game_id channel : String) : String :=
  game_id ++ ":" ++ channel

/-- One live subscription of the in-memory broker: the game it was
opened under, the channels it joined, and its queue of pending
messages (FIFO: the head is dequeued first, publishes append at the
tail). -/
structure Subscription where
  game_id : String
  channels : List String
  queue : List PyVal
deriving Repr

/-- The state of an `InMemoryMessageBroker`
(memory_message_broker.py): the registry of subscriber queues (the
source's nested dict `game_id → channel → set of queues`, flattened to
a list of subscriptions, each carrying the channels its queue joined)
and the `_shutdown` event flag. -/
structure InMemoryMessageBroker where
  subscribers : List Subscription
  shutdownFlag : Bool
deriving Repr

/-- A queue is notified by `publish(game_id, channel, _)` when it is
registered under that game and channel. -/
def matchesSub (game_id channel : String) (sub : Subscription) : Bool :=
  game_id == sub.game_id && sub.channels.contains channel

/-- `InMemoryMessageBroker.publish` (memory_message_broker.py lines
38-76): when shutting down, return 0 and deliver nothing; otherwise
enqueue the message on every queue registered under `(game_id,
channel)` and return the number of queues notified (an `asyncio.Queue`
put suspends rather than fails, so in the sequential model every
enqueue succeeds; an empty subscriber set returns 0). -/
def InMemoryMessageBroker.publish (s : InMemoryMessageBroker)
    (game_id channel : String) (message : PyVal) : InMemoryMessageBroker × Nat :=
  if s.shutdownFlag then (s, 0)
  else
    ({ s with
        subscribers := s.subscribers.map (fun sub =>
          if matchesSub game_id channel sub
          then { sub with queue := sub.queue ++ [message] }
          else sub) },
      (s.subscribers.filter (matchesSub game_id channel)).length)

/-- Sequential publishes of a list of messages to the same `(game_id,
channel)`, collecting each call's delivery count. -/
def InMemoryMessageBroker.publishSeq (s : InMemoryMessageBroker)
    (game_id channel : String) : List PyVal → InMemoryMessageBroker × List Nat
  | [] => (s, [])
  | m :: ms =>
      let r := InMemoryMessageBroker.publish s game_id channel m
      let rest := InMemoryMessageBroker.publishSeq r.1 game_id channel ms
      (rest.1, r.2 :: rest.2)

/-- The `channels` argument of `subscribe` in both brokers: Python
accepts a single channel string or a list of channels. -/
inductive ChannelsArg where
  | single (channel : String)
  | list (channels : List String)
deriving Repr

/-- What `subscribe` hands back: either the `empty_generator()` stream
for a falsy channel argument, modelled by the list of values the
generator yields, or a registered queue stream identified by its index
in the subscriber registry. -/
inductive SubscribeOutcome where
  | emptyStream (yields : List PyVal)
  | queueStream (index : Nat)
deriving Repr

/-- `InMemoryMessageBroker.subscribe` (memory_message_broker.py lines
78-128).  A single string is wrapped into a one-element list.  A falsy
(empty) channel list short-circuits: the source returns
`empty_generator()`, an async generator whose whole body is one bare
`yield`, and a bare `yield` in Python yields `None` once — so that
stream yields exactly `[None]` and registers no queue.  Otherwise a
fresh empty queue is added to the registry under every requested
channel. -/
def InMemoryMessageBroker.subscribe (s : InMemoryMessageBroker)
    (game_id : String) (channels : ChannelsArg) :
    InMemoryMessageBroker × SubscribeOutcome :=
  match channels with
  | .single c =>
      ({ s with subscribers := s.subscribers ++ [⟨game_id, [c], []⟩] },
        .queueStream s.subscribers.length)
  | .list cs =>
      if cs.isEmpty then (s, .emptyStream [PyVal.none])
      else
        ({ s with subscribers := s.subscribers ++ [⟨game_id, cs, []⟩] },
          .queueStream s.subscribers.length)

/-- The subscription generator loop (memory_message_broker.py lines
113-128) read over the contents of its queue: each iteration first
checks the `_shutdown` flag and exits if it is set; otherwise it
dequeues the next message, terminates without yielding it if it is the
sentinel, and yields it otherwise.  `shutdownSet` is the value of the
flag while the queue is drained. -/
def InMemoryMessageBroker.streamRead : (shutdownSet : Bool) → List PyVal → List PyVal
  | true, _ => []
  | false, [] => []
  | false, m :: rest =>
      if isSentinel m then []
      else m :: InMemoryMessageBroker.streamRead false rest

/-- `InMemoryMessageBroker.shutdown` (memory_message_broker.py lines
207-227): a second call returns at once; the first call sets the
`_shutdown` flag, posts the sentinel `{"__sentinel__": True}` on every
registered queue, and clears the registry.  The second component
returns the final contents of each formerly registered queue, i.e.
what was handed to the outstanding consumers. -/
def InMemoryMessageBroker.shutdown (s : InMemoryMessageBroker) :
    InMemoryMessageBroker × List (List PyVal) :=
  if s.shutdownFlag then (s, [])
  else
    (⟨[], true⟩, s.subscribers.map (fun sub => sub.queue ++ [sentinelMsg]))

/-- `RedisMessageBroker.subscribe` (redis_message_broker.py lines
106-113) contains the same falsy-channels short-circuit as the
in-memory broker: it returns `empty_generator()`, whose body is one
bare `yield`, yielding `None` once; no pubsub channel is subscribed. -/
def RedisMessageBroker.emptySubscribeYields (channels : List String) : Option (List PyVal) :=
  if channels.isEmpty then some [PyVal.none] else Option.none

/-- `GameScheduler._format_score_update_payload` (scheduler.py lines
149-162): wrap a score record as
`{"data": score, "type": ClientEvent.GAME_SCORE_UPDATE}`. -/
def GameScheduler.format_score_update_payload (score : PyVal) : PyVal :=
  .dict [("data", score), ("type", .str ClientEvent.GAME_SCORE_UPDATE)]

/-- Observable events of one `GameScheduler.run` execution: a broker
publish `broker.publish(game_id, channel, message)`, or the
`feeder.cleanup()` call from the `finally` block. -/
inductive RunEvent where
  | published (game_id : String) (channel : String) (message : PyVal)
  | cleanup
deriving Repr

/-- The emission loop body of `GameScheduler.run` (scheduler.py lines
217-233): for each record the feeder yields, wait at the pause gate,
publish the wrapped record on `BrokerChannels.SCORES_UPDATE`, then
sleep `speed` seconds (the gate and the sleep suspend but publish
nothing). -/
def GameScheduler.runLoop (game_id : String) : List PyVal → List RunEvent
  | [] => []
  | score :: rest =>
      .published game_id BrokerChannels.SCORES_UPDATE
          (GameScheduler.format_score_update_payload score)
        :: GameScheduler.runLoop game_id rest

/-- `GameScheduler.run` (scheduler.py lines 205-246) over a feeder that
yields `scores` and a run that is not paused or cancelled: the emission
loop, followed by the `finally` block, which cancels the control task
and calls `feeder.cleanup()` exactly once. -/
def GameScheduler.run (game_id : String) (scores : List PyVal) : List RunEvent :=
  GameScheduler.runLoop game_id scores ++ [.cleanup]

/-- `GameScheduler.run` interrupted after `j` emissions by an error or
cancellation: the loop stops early but the `finally` block still runs,
so `feeder.cleanup()` is still called on the way out. -/
def GameScheduler.runInterrupted (game_id : String) (scores : List PyVal)
    (j : Nat) : List RunEvent :=
  GameScheduler.runLoop game_id (scores.take j) ++ [.cleanup]

/-- The publishes of a run trace, as `(game_id, channel, message)`
triples in emission order. -/
def publishedOf (evs : List RunEvent) : List (String × String × PyVal) :=
  evs.filterMap (fun e =>
    match e with
    | .published g c m => some (g, c, m)
    | .cleanup => Option.none)

/-- How many times `feeder.cleanup()` is called in a run trace. -/
def cleanupCount (evs : List RunEvent) : Nat :=
  (evs.filter (fun e =>
    match e with
    | .cleanup => true
    | _ => false)).length

/-- The messages a subscriber of `(game_id, channels)` receives from a
run trace, in publish order (publishes to other games or channels are
not delivered to it). -/
def messagesOn (game_id : String) (channels : List String)
    (evs : List RunEvent) : List PyVal :=
  evs.filterMap (fun e =>
    match e with
    | .published g c m =>
        if g == game_id && channels.contains c then some m else Option.none
    | .cleanup => Option.none)

/-- `BaseGameFeeder.get_next_score` (game_feeder.py lines 66-103) with
the backing store abstracted as the list of batches `_load_batch`
returns in order (an exhausted store returns the empty batch).  The
loop runs while not exhausted or the buffer is non-empty; each
iteration refills the buffer from the next batch when not exhausted
(an empty batch sets `_exhausted`), then yields the front of the
buffer if any. -/
def BaseGameFeeder.get_next_score :
    (batches : List (List PyVal)) → (buffer : List PyVal) → (exhausted : Bool) → List PyVal
  | _, buffer, true => buffer
  | [], buffer, false => buffer
  | b :: rest, buffer, false =>
      if b.isEmpty then buffer
      else
        match buffer ++ b with
        | [] => []
        | x :: xs => x :: BaseGameFeeder.get_next_score rest xs false

/-- Python `s.startswith(pre)`, modelled structurally on the character
lists of the strings. -/
def strStartsWith (s pre : String) : Bool :=
  pre.data.isPrefixOf s.data

/-- `listen_to_broker_channels`, message-processing step
(join_game.py lines 77-125): skip non-dicts and falsy `type` fields;
a `"score_update"` message with a dict `data` is forwarded as the
client event `game.score.update` carrying
`{"type": event, "game_id": game_id, **data}`; a type starting with
`"game.control."` that parses as a `ClientEvent` is forwarded under
its own name with `token` and `type` popped from a copy of the message
and `type`/`game_id` re-injected; every other type is skipped.  (A
truthy non-string `type` would raise `AttributeError` at
`msg_type_str.startswith` and end the listener; it emits nothing, so
it is modelled as a skip.) -/
def processBrokerMessage (game_id : String) (m : PyVal) : Option (String × PyVal) :=
  match m with
  | .dict entries =>
      (match assocGet entries "type" with
       | some (.str t) =>
           if t.isEmpty then Option.none
           else if t = "score_update" then
             (match assocGet entries "data" with
              | some (.dict d) =>
                  some (ClientEvent.GAME_SCORE_UPDATE,
                    .dict (assocMerge
                      [("type", .str ClientEvent.GAME_SCORE_UPDATE),
                       ("game_id", .str game_id)] d))
              | _ => Option.none)
           else if strStartsWith t "game.control." then
             if clientEventStrings.contains t then
               some (t,
                 .dict (assocMerge
                   [("type", .str t), ("game_id", .str game_id)]
                   (assocPop (assocPop entries "token") "type")))
             else Option.none
           else Option.none
       | some _ => Option.none
       | Option.none => Option.none)
  | _ => Option.none

/-- `listen_to_broker_channels` (join_game.py lines 45-149) over the
sequence of broker messages its subscription delivers: the `(event,
payload)` pairs emitted to the game room, in order. -/
def listen_to_broker_channels (game_id : String) (msgs : List PyVal) :
    List (String × PyVal) :=
  msgs.filterMap (processBrokerMessage game_id)

/-- `GameScheduler.get_metadata` (scheduler.py lines 139-147):
`{"game_state": self.state, **game_details}`. -/
def GameScheduler.get_metadata (state : SchedulerState)
    (game_details : List (String × PyVal)) : List (String × PyVal) :=
  assocMerge [("game_state", .str state.toWire)] game_details

/-- The `game.join` response payload of `JoinGameHandler.handle`
(join_game.py lines 278-284):
`{**metadata, "message": f"Successfully joined game {game_id}"}`. -/
def JoinGameHandler.joinEventPayload (metadata : List (String × PyVal))
    (game_id : String) : PyVal :=
  .dict (assocMerge metadata
    [("message", .str ("Successfully joined game " ++ game_id))])

/-- The C1 scenario, composed from the embedded components: the client
joins (receiving the `game.join` event built from the scheduler
metadata), the scheduler runs the feeder to exhaustion, and the
started broker listener for `(game_id, [scores_update, controls])`
processes every message the scheduler published.  The result is the
ordered list of `(event, payload)` pairs the client room receives. -/
def c1ScenarioClientEvents (game_id : String)
    (game_details : List (String × PyVal)) (scores : List PyVal) :
    List (String × PyVal) :=
  (ClientEvent.GAME_JOIN,
      JoinGameHandler.joinEventPayload
        (GameScheduler.get_metadata .ongoing game_details) game_id)
    :: listen_to_broker_channels game_id
        (messagesOn game_id [BrokerChannels.SCORES_UPDATE, BrokerChannels.CONTROLS]
          (GameScheduler.run game_id scores))

/-- The registry state of `SchedulerManager` (manager.py): the
`_schedulers` and `_scheduler_tasks` maps, plus an allocation counter
giving fresh identities to each constructed feeder, scheduler and
task (`nextId` advances by three on every construction: feeder,
scheduler, task). -/
structure SchedulerManager where
  schedulers : List (String × Nat)
  tasks : List (String × Nat)
  nextId : Nat
deriving Repr

/-- `SchedulerManager.create_or_get_scheduler` (manager.py lines
80-130), under the process-wide lock: if `game_id` is already in
`_scheduler_tasks`, return the existing task and scheduler and change
nothing; otherwise construct a feeder (identity `nextId`), a scheduler
(`nextId + 1`), and the driving task (`nextId + 2`), register the last
two, and return them.  `none` models the `KeyError` of the source's
`self._schedulers[game_id]` read when the two maps disagree (which the
well-formedness invariant rules out). -/
def SchedulerManager.create_or_get_scheduler (s : SchedulerManager)
    (game_id : String) : Option ((Nat × Nat) × SchedulerManager) :=
  match assocGet s.tasks game_id with
  | some task =>
      (assocGet s.schedulers game_id).map (fun sch => ((sch, task), s))
  | Option.none =>
      some ((s.nextId + 1, s.nextId + 2),
        { schedulers := assocSet s.schedulers game_id (s.nextId + 1),
          tasks := assocSet s.tasks game_id (s.nextId + 2),
          nextId := s.nextId + 3 })

/-- Well-formedness of the registry: `_schedulers` and
`_scheduler_tasks` bind exactly the same game ids, with no duplicate
bindings (each game_id has at most one scheduler and at most one
driving task). -/
def SchedulerManager.WellFormed (s : SchedulerManager) : Prop :=
  s.schedulers.map Prod.fst = s.tasks.map Prod.fst ∧
  (s.schedulers.map Prod.fst).Nodup

/-- Modelled from the spec: `has(game_id) → bool` (§4.4 Scheduler
registry).  `GameControlHandler.handle_authenticated` calls
`scheduler_manager.has_scheduler(game_id)`, but no `has_scheduler`
method is defined on the `SchedulerManager` under src/ (only the test
suite and this caller name it); following the spec it is membership of
`game_id` in the registry map.  The raw payload value is the key, and
only string keys are ever registered. -/
def SchedulerManager.has_scheduler (s : SchedulerManager) (game_id : PyVal) : Bool :=
  match game_id with
  | .str g => (assocGet s.schedulers g).isSome
  | _ => false

/-- An observable side effect of a handler: a Socket.IO `emit` to a
session (with its optional namespace argument), or a broker publish. -/
inductive HandlerEffect where
  | emit (event : String) (payload : PyVal) (target : String) (ns : Option PyVal)
  | publish (game_id : PyVal) (channel : String) (payload : PyVal)
deriving Repr

/-- `GameControlHandler.handle_authenticated` (game_controls.py lines
20-35): read `namespace` (default `""`), index `data["game_id"]`
(`none` models the `KeyError` when absent); when no scheduler exists
for that game, emit the not-found error to the sender; otherwise
publish a copy of the payload with `token` popped on the `controls`
channel of that game. -/
def GameControlHandler.handle_authenticated (mgr : SchedulerManager)
    (sid : String) (data : List (String × PyVal)) : Option (List HandlerEffect) :=
  let ns := (assocGet data "namespace").getD (.str "")
  match assocGet data "game_id" with
  | Option.none => Option.none
  | some gid =>
      if mgr.has_scheduler gid then
        some [.publish gid BrokerChannels.CONTROLS (.dict (assocPop data "token"))]
      else
        some [.emit ClientEvent.ERROR
          (.dict [("error", .str "Game not found or not running")]) sid (some ns)]

/-- `AuthenticatedHandler.handle` (auth_base.py lines 11-18): read the
token from the payload (default `""`), ask the external auth validator
(a black box returning a boolean); on rejection emit
`{"error": "Unauthorized"}` to the sender and stop; otherwise defer to
`handle_authenticated`. -/
def AuthenticatedHandler.handle (validate : PyVal → Bool)
    (mgr : SchedulerManager) (sid : String) (data : List (String × PyVal)) :
    Option (List HandlerEffect) :=
  let token := (assocGet data "token").getD (.str "")
  if validate token then
    GameControlHandler.handle_authenticated mgr sid data
  else
    some [.emit ClientEvent.ERROR (.dict [("error", .str "Unauthorized")]) sid Option.none]

/-- `MessageDispatcher.dispatch` (message_dispacter.py lines 36-46),
final step: after schema validation the dispatcher runs
`validated_data.update({"namespace": namespace})` before invoking the
handler with the augmented payload. -/
def MessageDispatcher.augmentNamespace (validated : List (String × PyVal))
    (ns : String) : List (String × PyVal) :=
  assocSet validated "namespace" (.str ns)

/-- C9 counterexample. The networked broker's channel name for game
`g1` and channel `controls` is `g1:controls`, not the
`game:g1:controls` the claim specifies; publish and subscribe agree on
the unprefixed form. -/
theorem redis_channel_name_has_no_game_prefix :
    RedisMessageBroker.publishChannel "g1" "controls" = "g1:controls" ∧
    RedisMessageBroker.subscribeChannel "g1" "controls" = "g1:controls" ∧
    RedisMessageBroker.publishChannel "g1" "controls" ≠ "game:g1:controls" := by
  refine ⟨rfl, rfl, ?_⟩
  decide

/-- C9 (amended): for every publish and every subscribe on the
networked (Redis) broker, the underlying pub/sub channel name is the
string `<game_id>:<channel>` for the given game_id and channel. -/
theorem redis_channel_naming :
    ∀ (game_id channel : String),
      RedisMessageBroker.publishChannel game_id channel = game_id ++ ":" ++ channel ∧
      RedisMessageBroker.subscribeChannel game_id channel = game_id ++ ":" ++ channel := by
  intro game_id channel
  exact ⟨rfl, rfl⟩

/-- C7 counterexample. From the initial scheduler core (state
NOT_STARTED, pause gate clear), a `pause()` control sets the state to
PAUSED: the transition NOT_STARTED to PAUSED is produced by an
operation of the scheduler but is outside the listed edge set. -/
theorem pause_from_not_started_escapes_listed_edges :
    (GameScheduler.pause ⟨.not_started, false, 1⟩).state = .paused ∧
    listedEdge .not_started .paused = false := by
  exact ⟨rfl, rfl⟩

/-- C7 (amended): every scheduler operation drives the state to a fixed
target regardless of the source state: `start` and `resume` to ONGOING,
`pause` to PAUSED, the pause-deadline timer to AUTOPLAY (only when the
gate is still clear), while `adjust_speed` never changes the state.
From the sources listed by the specification these produce exactly the
listed edges; because the operations are unguarded, other edges such as
NOT_STARTED to PAUSED also occur. -/
theorem scheduler_state_transition_targets :
    ∀ (s : GameSchedulerCore) (v : Rat),
      (GameScheduler.start s).state = .ongoing ∧
      (GameScheduler.pause s).state = .paused ∧
      (GameScheduler.resume s).state = .ongoing ∧
      (GameScheduler.resume_due_to_timeout s).state = .autoplay ∧
      (GameScheduler.pauseTimerFire s).state =
        (if s.pause_event then s.state else .autoplay) ∧
      (GameScheduler.adjust_speed s v).state = s.state ∧
      listedEdge .not_started (GameScheduler.start ⟨.not_started, false, s.speed⟩).state = true ∧
      listedEdge .ongoing (GameScheduler.pause ⟨.ongoing, true, s.speed⟩).state = true ∧
      listedEdge .paused (GameScheduler.resume ⟨.paused, false, s.speed⟩).state = true ∧
      listedEdge .paused (GameScheduler.pauseTimerFire ⟨.paused, false, s.speed⟩).state = true := by
  intro s v
  refine ⟨rfl, rfl, rfl, rfl, ?_, ?_, rfl, rfl, rfl, rfl⟩
  · unfold GameScheduler.pauseTimerFire
    by_cases h : s.pause_event <;> simp [h, GameScheduler.resume_due_to_timeout]
  · unfold GameScheduler.adjust_speed
    by_cases h : v ≤ 0 <;> simp [h]

theorem assocGet_set_self {α : Type} (d : List (String × α)) (k : String) (v : α) :
    assocGet (assocSet d k v) k = some v := by
  induction d with
  | nil => simp [assocSet, assocGet]
  | cons e rest ih =>
      obtain ⟨k1, w⟩ := e
      by_cases h : k1 = k
      · simp [assocSet, h, assocGet]
      · simp [assocSet, h, assocGet, ih]

theorem assocGet_set_ne {α : Type} (d : List (String × α)) (k k2 : String) (v : α)
    (h : k2 ≠ k) : assocGet (assocSet d k v) k2 = assocGet d k2 := by
  induction d with
  | nil => simp [assocSet, assocGet, Ne.symm h]
  | cons e rest ih =>
      obtain ⟨k1, w⟩ := e
      by_cases h1 : k1 = k
      · subst h1
        simp [assocSet, assocGet, Ne.symm h]
      · simp [assocSet, h1, assocGet, ih]

theorem assocGet_pop_ne {α : Type} (d : List (String × α)) (k k2 : String)
    (h : k2 ≠ k) : assocGet (assocPop d k) k2 = assocGet d k2 := by
  induction d with
  | nil => rfl
  | cons e rest ih =>
      obtain ⟨k1, w⟩ := e
      by_cases h1 : k1 = k
      · subst h1
        simp [assocPop, assocGet, Ne.symm h, ih]
      · simp [assocPop, assocGet, h1, ih]

theorem assocGet_pop_self {α : Type} (d : List (String × α)) (k : String) :
    assocGet (assocPop d k) k = Option.none := by
  induction d with
  | nil => rfl
  | cons e rest ih =>
      obtain ⟨k1, w⟩ := e
      by_cases h1 : k1 = k
      · simp [assocPop, h1, ih]
      · simp [assocPop, assocGet, h1, ih]

theorem assocGet_none_iff {α : Type} (d : List (String × α)) (k : String) :
    assocGet d k = Option.none ↔ k ∉ d.map Prod.fst := by
  induction d with
  | nil => simp [assocGet]
  | cons e rest ih =>
      obtain ⟨k1, w⟩ := e
      by_cases h1 : k1 = k
      · simp [assocGet, h1]
      · simp [assocGet, h1, ih, Ne.symm h1]

theorem assocGet_isSome_iff {α : Type} (d : List (String × α)) (k : String) :
    (assocGet d k).isSome = true ↔ k ∈ d.map Prod.fst := by
  cases h : assocGet d k with
  | none =>
      simp only [Option.isSome_none, Bool.false_eq_true, false_iff]
      exact (assocGet_none_iff d k).mp h
  | some v =>
      simp only [Option.isSome_some, true_iff]
      by_contra hmem
      rw [← assocGet_none_iff d k, h] at hmem
      exact Option.noConfusion hmem

theorem assocSet_keys_absent {α : Type} (d : List (String × α)) (k : String) (v : α)
    (h : assocGet d k = Option.none) :
    (assocSet d k v).map Prod.fst = d.map Prod.fst ++ [k] := by
  induction d with
  | nil => simp [assocSet]
  | cons e rest ih =>
      obtain ⟨k1, w⟩ := e
      by_cases h1 : k1 = k
      · simp [assocGet, h1] at h
      · simp [assocGet, h1] at h
        simp [assocSet, h1, ih h]

/-- C10: the payload published on the controls channel for an
authenticated control message that passes the scheduler-exists check is
the dispatcher-validated payload with the `token` key removed and a
`namespace` key set to the namespace the message arrived on; every
other key-value pair is unchanged, so the scheduler's control
subscription observes the injected `namespace` field. -/
theorem control_publish_frame_effect
    (validated : List (String × PyVal)) (ns : String)
    (mgr : SchedulerManager) (sid : String) (gid : PyVal)
    (validate : PyVal → Bool)
    (hg : assocGet validated "game_id" = some gid)
    (hs : mgr.has_scheduler gid = true)
    (hv : validate ((assocGet (MessageDispatcher.augmentNamespace validated ns) "token").getD (.str "")) = true) :
    AuthenticatedHandler.handle validate mgr sid
        (MessageDispatcher.augmentNamespace validated ns) =
      some [.publish gid BrokerChannels.CONTROLS
        (.dict (assocPop (MessageDispatcher.augmentNamespace validated ns) "token"))] ∧
    PyVal.get (.dict (assocPop (MessageDispatcher.augmentNamespace validated ns) "token"))
        "namespace" = some (.str ns) ∧
    PyVal.get (.dict (assocPop (MessageDispatcher.augmentNamespace validated ns) "token"))
        "token" = Option.none ∧
    (∀ k, k ≠ "token" → k ≠ "namespace" →
      PyVal.get (.dict (assocPop (MessageDispatcher.augmentNamespace validated ns) "token")) k
        = assocGet validated k) := by
  have hg2 : assocGet (MessageDispatcher.augmentNamespace validated ns) "game_id" = some gid := by
    rw [MessageDispatcher.augmentNamespace, assocGet_set_ne]
    · exact hg
    · decide
  refine ⟨?_, ?_, ?_, ?_⟩
  · simp only [AuthenticatedHandler.handle, hv, if_true]
    simp only [GameControlHandler.handle_authenticated, hg2, hs, if_true]
  · show assocGet (assocPop (MessageDispatcher.augmentNamespace validated ns) "token") "namespace" = _
    rw [assocGet_pop_ne _ _ _ (by decide), MessageDispatcher.augmentNamespace,
      assocGet_set_self]
  · show assocGet (assocPop (MessageDispatcher.augmentNamespace validated ns) "token") "token" = _
    rw [assocGet_pop_self]
  · intro k hk1 hk2
    show assocGet (assocPop (MessageDispatcher.augmentNamespace validated ns) "token") k = _
    rw [assocGet_pop_ne _ _ _ hk1, MessageDispatcher.augmentNamespace,
      assocGet_set_ne _ _ _ _ hk2]

/-- C10 witness: a concrete validated start-control payload dispatched
on namespace `/game` for a registered game. -/
theorem control_publish_frame_effect_witness :
    assocGet [("game_id", PyVal.str "g1"), ("token", PyVal.str "t"),
        ("type", PyVal.str "game.control.start")] "game_id" = some (PyVal.str "g1") ∧
    SchedulerManager.has_scheduler ⟨[("g1", 1)], [("g1", 2)], 3⟩ (PyVal.str "g1") = true ∧
    AuthenticatedHandler.handle (fun _ => true) ⟨[("g1", 1)], [("g1", 2)], 3⟩ "sid0"
        (MessageDispatcher.augmentNamespace
          [("game_id", PyVal.str "g1"), ("token", PyVal.str "t"),
           ("type", PyVal.str "game.control.start")] "/game") =
      some [.publish (PyVal.str "g1") BrokerChannels.CONTROLS
        (.dict (assocPop (MessageDispatcher.augmentNamespace
          [("game_id", PyVal.str "g1"), ("token", PyVal.str "t"),
           ("type", PyVal.str "game.control.start")] "/game") "token"))] := by
  refine ⟨rfl, rfl, ?_⟩
  exact (control_publish_frame_effect
    [("game_id", PyVal.str "g1"), ("token", PyVal.str "t"),
     ("type", PyVal.str "game.control.start")] "/game"
    ⟨[("g1", 1)], [("g1", 2)], 3⟩ "sid0" (PyVal.str "g1")
    (fun _ => true) rfl rfl rfl).1

/-- C3: for every inbound control message carrying a `game_id`: a
rejected token makes the handler emit `{"error": "Unauthorized"}` to
the sender and nothing else; with a valid token but no scheduler for
the target game it emits `{"error": "Game not found or not running"}`;
otherwise it publishes the payload with the `token` key removed on the
`controls` channel of that game. -/
theorem control_handler_auth_routing
    (validate : PyVal → Bool) (mgr : SchedulerManager) (sid : String)
    (data : List (String × PyVal)) (gid : PyVal)
    (hg : assocGet data "game_id" = some gid) :
    (validate ((assocGet data "token").getD (.str "")) = false →
      AuthenticatedHandler.handle validate mgr sid data =
        some [.emit ClientEvent.ERROR
          (.dict [("error", .str "Unauthorized")]) sid Option.none]) ∧
    (validate ((assocGet data "token").getD (.str "")) = true →
      mgr.has_scheduler gid = false →
      AuthenticatedHandler.handle validate mgr sid data =
        some [.emit ClientEvent.ERROR
          (.dict [("error", .str "Game not found or not running")]) sid
          (some ((assocGet data "namespace").getD (.str "")))]) ∧
    (validate ((assocGet data "token").getD (.str "")) = true →
      mgr.has_scheduler gid = true →
      AuthenticatedHandler.handle validate mgr sid data =
        some [.publish gid BrokerChannels.CONTROLS
          (.dict (assocPop data "token"))]) := by
  refine ⟨?_, ?_, ?_⟩
  · intro hv
    simp only [AuthenticatedHandler.handle, hv, Bool.false_eq_true, if_false]
  · intro hv hns
    simp only [AuthenticatedHandler.handle, hv, if_true]
    simp only [GameControlHandler.handle_authenticated, hg, hns,
      Bool.false_eq_true, if_false]
  · intro hv hhs
    simp only [AuthenticatedHandler.handle, hv, if_true]
    simp only [GameControlHandler.handle_authenticated, hg, hhs, if_true]

/-- C3 witness: with no scheduler registered and an accepting
validator, a concrete control message gets the not-found error. -/
theorem control_handler_auth_routing_witness :
    assocGet [("game_id", PyVal.str "g9"), ("token", PyVal.str "t")] "game_id"
        = some (PyVal.str "g9") ∧
    (fun (_ : PyVal) => true) ((assocGet [("game_id", PyVal.str "g9"),
        ("token", PyVal.str "t")] "token").getD (.str "")) = true ∧
    SchedulerManager.has_scheduler ⟨[], [], 0⟩ (PyVal.str "g9") = false ∧
    AuthenticatedHandler.handle (fun _ => true) ⟨[], [], 0⟩ "sid1"
        [("game_id", PyVal.str "g9"), ("token", PyVal.str "t")] =
      some [.emit ClientEvent.ERROR
        (.dict [("error", .str "Game not found or not running")]) "sid1"
        (some (PyVal.str ""))] := by
  refine ⟨rfl, rfl, rfl, ?_⟩
  exact (control_handler_auth_routing (fun _ => true) ⟨[], [], 0⟩ "sid1"
    [("game_id", PyVal.str "g9"), ("token", PyVal.str "t")]
    (PyVal.str "g9") rfl).2.1 rfl rfl

theorem publishedOf_runLoop (g : String) (scores : List PyVal) :
    publishedOf (GameScheduler.runLoop g scores) =
      scores.map (fun x =>
        (g, BrokerChannels.SCORES_UPDATE, GameScheduler.format_score_update_payload x)) := by
  induction scores with
  | nil => rfl
  | cons s rest ih =>
      simp only [GameScheduler.runLoop, publishedOf, List.filterMap_cons, List.map_cons] at ih ⊢
      rw [ih]

theorem cleanupCount_runLoop (g : String) (scores : List PyVal) :
    cleanupCount (GameScheduler.runLoop g scores) = 0 := by
  induction scores with
  | nil => rfl
  | cons s rest ih =>
      simp only [GameScheduler.runLoop, cleanupCount, List.filter_cons] at ih ⊢
      simpa using ih

theorem publishedOf_append (a b : List RunEvent) :
    publishedOf (a ++ b) = publishedOf a ++ publishedOf b := by
  simp [publishedOf, List.filterMap_append]

theorem cleanupCount_append (a b : List RunEvent) :
    cleanupCount (a ++ b) = cleanupCount a + cleanupCount b := by
  simp [cleanupCount, List.filter_append]

theorem get_next_score_eq (batches : List (List PyVal)) :
    ∀ buffer : List PyVal,
      BaseGameFeeder.get_next_score batches buffer false =
        buffer ++ (batches.takeWhile (fun b => !b.isEmpty)).flatten := by
  induction batches with
  | nil =>
      intro buffer
      simp [BaseGameFeeder.get_next_score]
  | cons b rest ih =>
      intro buffer
      cases b with
      | nil =>
          simp [BaseGameFeeder.get_next_score, List.takeWhile_cons]
      | cons x xs =>
          cases hq : buffer ++ x :: xs with
          | nil => exact absurd hq (by simp)
          | cons z zs =>
              have hstep :
                  BaseGameFeeder.get_next_score ((x :: xs) :: rest) buffer false =
                    z :: BaseGameFeeder.get_next_score rest zs false := by
                rw [show BaseGameFeeder.get_next_score ((x :: xs) :: rest) buffer false =
                    (if (x :: xs).isEmpty then buffer
                     else
                       match buffer ++ (x :: xs) with
                       | [] => []
                       | y :: ys => y :: BaseGameFeeder.get_next_score rest ys false)
                  from rfl]
                rw [hq]
                rfl
              rw [hstep, ih zs, List.takeWhile_cons]
              simp only [List.isEmpty_cons, Bool.not_false, if_true, List.flatten_cons]
              have hzs : z :: (zs ++ (List.takeWhile (fun b => !b.isEmpty) rest).flatten) =
                  (z :: zs) ++ (List.takeWhile (fun b => !b.isEmpty) rest).flatten := rfl
              rw [hzs, ← hq, List.append_assoc]

/-- C2: a run of the scheduler over a feeder yielding `k` records
publishes exactly `k` envelopes `{data: record, type: game.score.update}`
on the `scores_update` channel of its game, in feeder order; the
feeder's `cleanup()` is called exactly once, after the last emission,
and still exactly once when the run is cut short after any number of
emissions by an error or cancellation; the feeder itself yields the
records of its batches in source order. -/
theorem scheduler_run_emission_contract :
    ∀ (g : String) (scores : List PyVal) (j : Nat)
      (batches : List (List PyVal)) (r : PyVal),
      publishedOf (GameScheduler.run g scores) =
        scores.map (fun x =>
          (g, BrokerChannels.SCORES_UPDATE, GameScheduler.format_score_update_payload x)) ∧
      cleanupCount (GameScheduler.run g scores) = 1 ∧
      (GameScheduler.run g scores).getLast? = some RunEvent.cleanup ∧
      cleanupCount (GameScheduler.runInterrupted g scores j) = 1 ∧
      PyVal.get (GameScheduler.format_score_update_payload r) "type" =
        some (.str ClientEvent.GAME_SCORE_UPDATE) ∧
      PyVal.get (GameScheduler.format_score_update_payload r) "data" = some r ∧
      BaseGameFeeder.get_next_score batches [] false =
        (batches.takeWhile (fun b => !b.isEmpty)).flatten := by
  intro g scores j batches r
  refine ⟨?_, ?_, ?_, ?_, rfl, rfl, ?_⟩
  · rw [GameScheduler.run, publishedOf_append, publishedOf_runLoop]
    rw [show publishedOf [RunEvent.cleanup] = [] from rfl, List.append_nil]
  · rw [GameScheduler.run, cleanupCount_append, cleanupCount_runLoop]
    rfl
  · rw [GameScheduler.run]
    exact List.getLast?_concat _
  · rw [GameScheduler.runInterrupted, cleanupCount_append, cleanupCount_runLoop]
    rfl
  · exact get_next_score_eq batches []

/-- C1: end-to-end scenario at the concrete feeder
`[{p:1}, {p:2}, {p:3}]` for game `game1`.  The client room receives the
`game.join` event carrying the game metadata — and then nothing: the
scheduler's three published envelopes carry `type` `game.score.update`,
but the broker listener only forwards score payloads whose `type` is
the literal `score_update` (as the last conjunct shows), so all three
score updates are dropped and no `game.score.update` event reaches the
client, where the claim expects three. -/
theorem c1_join_event_but_score_updates_dropped :
    c1ScenarioClientEvents "game1"
        [("game_id", .str "game1"),
         ("teams", .dict [("home", .str "A"), ("away", .str "B")])]
        [.dict [("p", .int 1)], .dict [("p", .int 2)], .dict [("p", .int 3)]] =
      [(ClientEvent.GAME_JOIN,
        .dict [("game_state", .str "ongoing"), ("game_id", .str "game1"),
               ("teams", .dict [("home", .str "A"), ("away", .str "B")]),
               ("message", .str "Successfully joined game game1")])] ∧
    listen_to_broker_channels "game1"
        (messagesOn "game1" [BrokerChannels.SCORES_UPDATE, BrokerChannels.CONTROLS]
          (GameScheduler.run "game1"
            [.dict [("p", .int 1)], .dict [("p", .int 2)], .dict [("p", .int 3)]])) = [] ∧
    PyVal.get (GameScheduler.format_score_update_payload (.dict [("p", .int 1)])) "type"
      = some (.str "game.score.update") ∧
    processBrokerMessage "game1"
        (GameScheduler.format_score_update_payload (.dict [("p", .int 1)])) = Option.none ∧
    processBrokerMessage "game1"
        (.dict [("data", .dict [("p", .int 1)]), ("type", .str "score_update")]) =
      some (ClientEvent.GAME_SCORE_UPDATE,
        .dict [("type", .str "game.score.update"), ("game_id", .str "game1"),
               ("p", .int 1)]) := by
  exact ⟨rfl, rfl, rfl, rfl, rfl⟩

theorem publishSeq_single (g c : String) (chs : List String)
    (hc : chs.contains c = true) :
    ∀ (ms q : List PyVal),
      InMemoryMessageBroker.publishSeq ⟨[⟨g, chs, q⟩], false⟩ g c ms =
        (⟨[⟨g, chs, q ++ ms⟩], false⟩, List.replicate ms.length 1) := by
  intro ms
  induction ms with
  | nil =>
      intro q
      simp [InMemoryMessageBroker.publishSeq]
  | cons m rest ih =>
      intro q
      have hmatch : matchesSub g c ⟨g, chs, q⟩ = true := by
        simp only [matchesSub]
        rw [hc]
        simp
      have hpub : InMemoryMessageBroker.publish ⟨[⟨g, chs, q⟩], false⟩ g c m =
          (⟨[⟨g, chs, q ++ [m]⟩], false⟩, 1) := by
        simp [InMemoryMessageBroker.publish, hmatch]
      simp only [InMemoryMessageBroker.publishSeq, hpub, ih (q ++ [m])]
      simp [List.append_assoc, List.replicate_succ]

theorem streamRead_no_sentinel :
    ∀ ms : List PyVal, ms.all (fun m => !isSentinel m) = true →
      InMemoryMessageBroker.streamRead false ms = ms := by
  intro ms
  induction ms with
  | nil => intro _; rfl
  | cons m rest ih =>
      intro h
      simp only [List.all_cons, Bool.and_eq_true, Bool.not_eq_true'] at h
      simp [InMemoryMessageBroker.streamRead, h.1, ih h.2]

theorem streamRead_shutdown (q : List PyVal) :
    InMemoryMessageBroker.streamRead true q = [] := by
  cases q <;> rfl

theorem streamRead_never_yields_sentinel (b : Bool) (q : List PyVal) :
    (InMemoryMessageBroker.streamRead b q).filter (fun x => isSentinel x) = [] := by
  cases b with
  | true => rw [streamRead_shutdown]; rfl
  | false =>
      induction q with
      | nil => rfl
      | cons m rest ih =>
          by_cases hm : isSentinel m
          · simp [InMemoryMessageBroker.streamRead, hm]
          · simp [InMemoryMessageBroker.streamRead, hm, List.filter_cons, ih]

/-- C4: for a single subscriber of `(g, c)` on the in-process broker,
publishing `m1, ..., mn` in order enqueues exactly those messages in
order on its queue (so its stream yields them in the same order — as
`streamRead` shows for non-sentinel payloads), each publish call
returning 1; in general a publish returns the number of subscriber
queues notified, which is 0 when there are no subscribers. -/
theorem inmemory_single_subscriber_pubsub
    (g c : String) (chs : List String) (ms : List PyVal)
    (hc : chs.contains c = true)
    (hns : ms.all (fun m => !isSentinel m) = true) :
    (InMemoryMessageBroker.publishSeq ⟨[⟨g, chs, []⟩], false⟩ g c ms).1 =
      ⟨[⟨g, chs, ms⟩], false⟩ ∧
    (InMemoryMessageBroker.publishSeq ⟨[⟨g, chs, []⟩], false⟩ g c ms).2 =
      List.replicate ms.length 1 ∧
    InMemoryMessageBroker.streamRead false ms = ms ∧
    (∀ (s : InMemoryMessageBroker) (g2 c2 : String) (m : PyVal),
      s.shutdownFlag = false →
      (InMemoryMessageBroker.publish s g2 c2 m).2 =
        (s.subscribers.filter (matchesSub g2 c2)).length) ∧
    (∀ (s : InMemoryMessageBroker) (g2 c2 : String) (m : PyVal),
      s.shutdownFlag = false → s.subscribers = [] →
      InMemoryMessageBroker.publish s g2 c2 m = (s, 0)) := by
  refine ⟨?_, ?_, streamRead_no_sentinel ms hns, ?_, ?_⟩
  · rw [publishSeq_single g c chs hc ms []]
    simp
  · rw [publishSeq_single g c chs hc ms []]
  · intro s g2 c2 m hflag
    simp [InMemoryMessageBroker.publish, hflag]
  · intro s g2 c2 m hflag hsubs
    obtain ⟨subs, flag⟩ := s
    simp only at hflag hsubs
    subst hflag
    subst hsubs
    simp [InMemoryMessageBroker.publish]

/-- C4 witness: two non-sentinel score payloads published to a single
subscriber of `(g1, scores_update)` land on its queue in order. -/
theorem inmemory_single_subscriber_pubsub_witness :
    ([BrokerChannels.SCORES_UPDATE].contains BrokerChannels.SCORES_UPDATE) = true ∧
    ([PyVal.dict [("p", PyVal.int 1)], PyVal.dict [("p", PyVal.int 2)]].all
      (fun m => !isSentinel m)) = true ∧
    (InMemoryMessageBroker.publishSeq
        ⟨[⟨"g1", [BrokerChannels.SCORES_UPDATE], []⟩], false⟩
        "g1" BrokerChannels.SCORES_UPDATE
        [PyVal.dict [("p", PyVal.int 1)], PyVal.dict [("p", PyVal.int 2)]]).1 =
      ⟨[⟨"g1", [BrokerChannels.SCORES_UPDATE],
        [PyVal.dict [("p", PyVal.int 1)], PyVal.dict [("p", PyVal.int 2)]]⟩], false⟩ := by
  refine ⟨by decide, by decide, ?_⟩
  exact (inmemory_single_subscriber_pubsub "g1" BrokerChannels.SCORES_UPDATE
    [BrokerChannels.SCORES_UPDATE]
    [PyVal.dict [("p", PyVal.int 1)], PyVal.dict [("p", PyVal.int 2)]]
    (by decide) (by decide)).1

/-- C5: after the first `shutdown()` of the in-process broker, the
subscriber registry is cleared and the flag is set; a subscription
stream read under the set flag terminates without yielding anything,
and no stream ever yields a sentinel; every subsequent publish leaves
the state unchanged and returns 0; and a second `shutdown()` returns
the same state and posts no further sentinels. -/
theorem inmemory_shutdown_contract
    (s : InMemoryMessageBroker) (g c : String) (m : PyVal) (b : Bool)
    (q : List PyVal) (hflag : s.shutdownFlag = false) :
    (s.shutdown).1.subscribers = [] ∧
    (s.shutdown).1.shutdownFlag = true ∧
    InMemoryMessageBroker.streamRead true q = [] ∧
    (InMemoryMessageBroker.streamRead b q).filter (fun x => isSentinel x) = [] ∧
    InMemoryMessageBroker.publish (s.shutdown).1 g c m = ((s.shutdown).1, 0) ∧
    ((s.shutdown).1).shutdown = ((s.shutdown).1, []) := by
  have hsd : (s.shutdown).1 = ⟨[], true⟩ := by
    simp [InMemoryMessageBroker.shutdown, hflag]
  rw [hsd]
  exact ⟨rfl, rfl, streamRead_shutdown q,
    streamRead_never_yields_sentinel b q, rfl, rfl⟩

/-- C5 witness: a broker with one live control subscription, before
shutdown. -/
theorem inmemory_shutdown_contract_witness :
    (⟨[⟨"g1", [BrokerChannels.CONTROLS], []⟩], false⟩ :
        InMemoryMessageBroker).shutdownFlag = false ∧
    ((⟨[⟨"g1", [BrokerChannels.CONTROLS], []⟩], false⟩ :
        InMemoryMessageBroker).shutdown).1.subscribers = [] ∧
    InMemoryMessageBroker.publish
        ((⟨[⟨"g1", [BrokerChannels.CONTROLS], []⟩], false⟩ :
          InMemoryMessageBroker).shutdown).1 "g1" BrokerChannels.CONTROLS
        (PyVal.dict [("type", PyVal.str "game.control.start")]) =
      (((⟨[⟨"g1", [BrokerChannels.CONTROLS], []⟩], false⟩ :
          InMemoryMessageBroker).shutdown).1, 0) := by
  refine ⟨rfl, ?_, ?_⟩
  · exact (inmemory_shutdown_contract _ "g1" BrokerChannels.CONTROLS
      (PyVal.dict [("type", PyVal.str "game.control.start")]) false [] rfl).1
  · exact (inmemory_shutdown_contract _ "g1" BrokerChannels.CONTROLS
      (PyVal.dict [("type", PyVal.str "game.control.start")]) false [] rfl).2.2.2.2.1

/-- C6: on a well-formed registry (the two maps bind the same game ids,
each at most once), `create_or_get_scheduler` succeeds, preserves
well-formedness — so each game id keeps at most one scheduler and one
driving task — and a repeated call for the same game id returns the
identical scheduler and task references with the state unchanged, so
no new feeder, scheduler or task is constructed (the allocation
counter does not advance) and any sequence of calls yields identical
references. -/
theorem scheduler_registry_create_or_get_idempotent
    (s : SchedulerManager) (g : String) (hwf : s.WellFormed) :
    ∃ (r : Nat × Nat) (s1 : SchedulerManager),
      s.create_or_get_scheduler g = some (r, s1) ∧
      s1.WellFormed ∧
      s1.create_or_get_scheduler g = some (r, s1) := by
  obtain ⟨hkeys, hnodup⟩ := hwf
  cases ht : assocGet s.tasks g with
  | some task =>
      have hmem : g ∈ s.tasks.map Prod.fst := by
        rw [← assocGet_isSome_iff, ht]
        rfl
      have hmem2 : g ∈ s.schedulers.map Prod.fst := by
        rw [hkeys]
        exact hmem
      obtain ⟨sch, hsch⟩ :=
        Option.isSome_iff_exists.mp ((assocGet_isSome_iff _ _).mpr hmem2)
      refine ⟨(sch, task), s, ?_, ⟨hkeys, hnodup⟩, ?_⟩
      · simp [SchedulerManager.create_or_get_scheduler, ht, hsch]
      · simp [SchedulerManager.create_or_get_scheduler, ht, hsch]
  | none =>
      have hgtasks : g ∉ s.tasks.map Prod.fst := (assocGet_none_iff _ _).mp ht
      have hgsched : g ∉ s.schedulers.map Prod.fst := by
        rw [hkeys]
        exact hgtasks
      have hschednone : assocGet s.schedulers g = Option.none :=
        (assocGet_none_iff _ _).mpr hgsched
      refine ⟨(s.nextId + 1, s.nextId + 2),
        { schedulers := assocSet s.schedulers g (s.nextId + 1),
          tasks := assocSet s.tasks g (s.nextId + 2),
          nextId := s.nextId + 3 }, ?_, ⟨?_, ?_⟩, ?_⟩
      · simp [SchedulerManager.create_or_get_scheduler, ht]
      · simp only
        rw [assocSet_keys_absent _ _ _ hschednone, assocSet_keys_absent _ _ _ ht,
          hkeys]
      · simp only
        rw [assocSet_keys_absent _ _ _ hschednone]
        refine List.Nodup.append hnodup (List.nodup_singleton g) ?_
        intro a ha hb
        rw [List.mem_singleton] at hb
        subst hb
        exact hgsched ha
      · simp [SchedulerManager.create_or_get_scheduler, assocGet_set_self]

/-- C6 witness: the empty registry is well-formed, and creating then
re-requesting the scheduler for `g1` returns identical references. -/
theorem scheduler_registry_create_or_get_idempotent_witness :
    SchedulerManager.WellFormed ⟨[], [], 0⟩ ∧
    (∃ (r : Nat × Nat) (s1 : SchedulerManager),
      SchedulerManager.create_or_get_scheduler ⟨[], [], 0⟩ "g1" = some (r, s1) ∧
      s1.WellFormed ∧
      s1.create_or_get_scheduler "g1" = some (r, s1)) :=
  ⟨⟨rfl, List.nodup_nil⟩,
    scheduler_registry_create_or_get_idempotent ⟨[], [], 0⟩ "g1" ⟨rfl, List.nodup_nil⟩⟩

/-- C8: subscribing with an empty channel list on either broker variant
returns the `empty_generator()` stream, which yields exactly one `None`
element before terminating (its body is a bare `yield`, and a bare
`yield` in Python yields `None`), not zero elements as claimed; no
queue or pubsub channel is registered. -/
theorem empty_channel_subscribe_yields_one_none :
    (InMemoryMessageBroker.subscribe ⟨[], false⟩ "g1" (.list [])).2 =
      .emptyStream [PyVal.none] ∧
    (InMemoryMessageBroker.subscribe ⟨[], false⟩ "g1" (.list [])).1 = ⟨[], false⟩ ∧
    RedisMessageBroker.emptySubscribeYields [] = some [PyVal.none] ∧
    [PyVal.none] ≠ ([] : List PyVal) := by
  refine ⟨rfl, rfl, rfl, ?_⟩
  simp

end TennisWeb
